import Mathlib

/-!
Verification of `evaluate_simulink_image.py`.

The script is a thin client: it reads one or two image files, sends them with a
fixed rubric prompt to a chat-completion endpoint, and extracts an integer score
from the free-text reply with `re.search`, falling back to one clarification
call and finally to a default score of 50.

We embed the score-extraction regex

  `\b([0-9]{1,3})\s*[/／]\s*100\b|\bスコア[：:]*\s*([0-9]{1,3})\b|\b評価[：:]*\s*([0-9]{1,3})\b|\b([0-9]{1,3})\s*点\b`

and the clarification regex `\b([0-9]{1,3})\b` directly, together with the
control flow of `evaluate_image` and of the `__main__` block.  Python's
`re.search` returns the leftmost match; at a fixed start position the
alternatives are tried in the order written.  For these particular patterns
backtracking inside an alternative never produces a match that the greedy
first attempt misses (shortening a greedy `[0-9]{1,3}` or `\s*` run always
fails on the next literal), so each alternative is embedded as a deterministic
function of the suffix at the current position.

Transport (HTTP POST, `raise_for_status`, `.json()`, field access) is
abstracted as an `Except String String` oracle per call: `Except.ok text` is a
successful call whose extracted `choices[0].message.content` is `text`, and
`Except.error e` is any exception raised on that path (network error, non-2xx
status, malformed JSON, missing field).  Reading-and-base64-encoding a file
(`encode_image`) is abstracted as an oracle `String → Except String String`;
its `Except.error` is the uncaught file-access exception.
-/

/-- Python `\w` (word character) restricted to the character ranges that can
appear in this program's texts: ASCII alphanumerics, underscore, hiragana,
katakana, CJK unified ideographs, and full-width digits/letters.  Full-width
punctuation such as `：` (U+FF1A) and `／` (U+FF0F) is not a word character. -/
def isWordChar (c : Char) : Bool :=
  c.isAlphanum || c == '_' ||
  (0x3040 ≤ c.toNat && c.toNat ≤ 0x30FF) ||
  (0x4E00 ≤ c.toNat && c.toNat ≤ 0x9FFF) ||
  (0xFF10 ≤ c.toNat && c.toNat ≤ 0xFF19) ||
  (0xFF21 ≤ c.toNat && c.toNat ≤ 0xFF3A) ||
  (0xFF41 ≤ c.toNat && c.toNat ≤ 0xFF5A)

/-- Python `\s`: ASCII whitespace plus the ideographic space U+3000. -/
def isSpaceChar (c : Char) : Bool :=
  c == ' ' || c == '\t' || c == '\n' || c == '\r' ||
  c.toNat == 0x0B || c.toNat == 0x0C || c.toNat == 0x3000

/-- Character class `[：:]` of the regex (full- or half-width colon). -/
def isColonChar (c : Char) : Bool :=
  c == ':' || c.toNat == 0xFF1A

/-- Character class `[/／]` of the regex (half- or full-width slash). -/
def isSlashChar (c : Char) : Bool :=
  c == '/' || c.toNat == 0xFF0F

/-- Whether an optional character (the one before, or after, the part being
matched; `none` at the ends of the text) is a word character.  A `\b` before a
word character holds iff the previous character is not a word character, and a
`\b` after a word character holds iff the next character is not one. -/
def wordB (c : Option Char) : Bool :=
  match c with
  | none => false
  | some c => isWordChar c

/-- Value of a digit string, as `int()` computes it. -/
def parseDigits (ds : List Char) : Nat :=
  ds.foldl (fun a c => 10 * a + (c.toNat - 48)) 0

/-- Consume a literal keyword at the head of the suffix, or fail. -/
def dropKw : List Char → List Char → Option (List Char)
  | [], s => some s
  | _ :: _, [] => none
  | k :: ks, c :: s => if c == k then dropKw ks s else none

/-- Alternative `\b([0-9]{1,3})\s*[/／]\s*100\b` tried at one start position.
`prev` is the character before the position.  The greedy digit run must have
length 1–3 (a longer run can never back off to a successful match, since the
character after a shortened run is a digit and `[/／]` rejects it). -/
def patSlash100 (prev : Option Char) (s : List Char) : Option Nat :=
  if wordB prev then none else
  let ds := s.takeWhile Char.isDigit
  let r1 := s.dropWhile Char.isDigit
  if ds.length < 1 || 3 < ds.length then none else
  match r1.dropWhile isSpaceChar with
  | [] => none
  | c :: r3 =>
    if !isSlashChar c then none else
    match r3.dropWhile isSpaceChar with
    | '1' :: '0' :: '0' :: r5 =>
      if wordB r5.head? then none else some (parseDigits ds)
    | _ => none

/-- Alternatives `\bスコア[：:]*\s*([0-9]{1,3})\b` and
`\b評価[：:]*\s*([0-9]{1,3})\b`, parametrised by the keyword, tried at one
start position. -/
def patKeyword (kw : List Char) (prev : Option Char) (s : List Char) : Option Nat :=
  if wordB prev then none else
  match dropKw kw s with
  | none => none
  | some r1 =>
    let r2 := (r1.dropWhile isColonChar).dropWhile isSpaceChar
    let ds := r2.takeWhile Char.isDigit
    let r3 := r2.dropWhile Char.isDigit
    if ds.length < 1 || 3 < ds.length then none else
    if wordB r3.head? then none else some (parseDigits ds)

/-- Alternative `\b([0-9]{1,3})\s*点\b` tried at one start position. -/
def patTen (prev : Option Char) (s : List Char) : Option Nat :=
  if wordB prev then none else
  let ds := s.takeWhile Char.isDigit
  let r1 := s.dropWhile Char.isDigit
  if ds.length < 1 || 3 < ds.length then none else
  match r1.dropWhile isSpaceChar with
  | [] => none
  | c :: r3 =>
    if c == '点' && !wordB r3.head? then some (parseDigits ds) else none

/-- All four alternatives of the score regex at one start position, in the
order they are written; the captured group of the first alternative that
matches is the extracted value (the Python code takes the first non-`None`
group, which is exactly the group of the matching alternative). -/
def tryPats (prev : Option Char) (s : List Char) : Option Nat :=
  match patSlash100 prev s with
  | some n => some n
  | none =>
    match patKeyword ['ス', 'コ', 'ア'] prev s with
    | some n => some n
    | none =>
      match patKeyword ['評', '価'] prev s with
      | some n => some n
      | none => patTen prev s

/-- Leftmost-match search of the score regex: scan start positions left to
right; at each position try the alternatives in order (`re.search`). -/
def scanText (prev : Option Char) : List Char → Option Nat
  | [] => none
  | c :: rest =>
    match tryPats prev (c :: rest) with
    | some n => some n
    | none => scanText (some c) rest

/-- Primary score extraction of `evaluate_image`, on a character list. -/
def extractScoreL (t : List Char) : Option Nat :=
  scanText none t

/-- Primary score extraction of `evaluate_image` (lines 98–105 of the
script): leftmost match of the four-alternative regex, value of its group. -/
def extractScore (s : String) : Option Nat :=
  extractScoreL s.data

/-- Clarification regex `\b([0-9]{1,3})\b` at one start position: a maximal
digit run of length 1–3 delimited by word boundaries on both sides. -/
def int13At (prev : Option Char) (s : List Char) : Option Nat :=
  if wordB prev then none else
  let ds := s.takeWhile Char.isDigit
  let r1 := s.dropWhile Char.isDigit
  if ds.length < 1 || 3 < ds.length then none else
  if wordB r1.head? then none else some (parseDigits ds)

/-- Leftmost-match search of the clarification regex. -/
def scanInt13 (prev : Option Char) : List Char → Option Nat
  | [] => none
  | c :: rest =>
    match int13At prev (c :: rest) with
    | some n => some n
    | none => scanInt13 (some c) rest

/-- First 1–3 digit integer of the clarification reply, on a character list. -/
def findInt13L (t : List Char) : Option Nat :=
  scanInt13 none t

/-- First 1–3 digit integer found in the clarification reply (line 128 of the
script): `re.search(r"\b([0-9]{1,3})\b", clarification_text)`. -/
def findInt13 (s : String) : Option Nat :=
  findInt13L s.data

/-- Python's truthiness test `if not api_key` on `os.environ.get(...)`:
true when the variable is absent or set to the empty string. -/
def keyMissing : Option String → Bool
  | none => true
  | some s => s.isEmpty

/-- Decimal numeral of `n < 1000` as a 1–3 digit character list. -/
def natDigits (n : Nat) : List Char :=
  if n < 10 then [Nat.digitChar n]
  else if n < 100 then [Nat.digitChar (n / 10), Nat.digitChar (n % 10)]
  else [Nat.digitChar (n / 100), Nat.digitChar (n / 10 % 10), Nat.digitChar (n % 10)]

/-- The `evaluate_image` function of the script.  `api_key` is
`os.environ.get("OPENAI_API_KEY")`; `encode_image` is the file-read-and-base64
oracle; `primary` and `clarify` are the transport oracles of the two API calls
(each call is made at most once, so one `Except` value per call suffices).

Result: the returned value (`Except.error` when an exception propagates to the
caller, which happens exactly for file-access failures — lines 65–76 sit
before the `try`), the number of API calls issued, and the lines printed to
standard output. -/
def evaluate_image (api_key : Option String)
    (encode_image : String → Except String String)
    (primary clarify : Except String String)
    (image_path : String) (before_image_path : Option String) :
    Except String Int × Nat × List String :=
  if keyMissing api_key then
    (Except.ok (-1), 0,
      ["NO_API_KEY: OPENAI_API_KEY environment variable not set. Switching to manual evaluation."])
  else
    match encode_image image_path with
    | Except.error e => (Except.error e, 0, [])
    | Except.ok _ =>
      match (match before_image_path with
             | none => Except.ok ()
             | some p => (encode_image p).map fun _ => ()) with
      | Except.error e => (Except.error e, 0, [])
      | Except.ok _ =>
        match primary with
        | Except.error e => (Except.ok 50, 1, ["Error: " ++ e])
        | Except.ok ai_response =>
          let ls0 := ["AI Evaluation:", ai_response]
          match extractScore ai_response with
          | some score =>
            (Except.ok (score : Int), 1, ls0 ++ ["Extracted score: " ++ toString score])
          | none =>
            match clarify with
            | Except.error e => (Except.ok 50, 2, ls0 ++ ["Error: " ++ e])
            | Except.ok ctext =>
              let ls1 := ls0 ++ ["AI Clarification:", ctext]
              match findInt13 ctext with
              | some m =>
                if m ≤ 100 then
                  (Except.ok (m : Int), 2,
                    ls1 ++ ["Extracted score from clarification: " ++ toString m])
                else
                  (Except.ok 50, 2,
                    ls1 ++ ["Could not extract a valid score, using default value of 50"])
              | none =>
                (Except.ok 50, 2,
                  ls1 ++ ["Could not extract a valid score, using default value of 50"])

/-- The `__main__` block: argument check, call to `evaluate_image`, and the
two final prints.  Result: `Except.error` when an exception escapes (file
access), otherwise the exit code and the full list of printed lines. -/
def main_run (argv : List String) (api_key : Option String)
    (encode_image : String → Except String String)
    (primary clarify : Except String String) : Except String (Nat × List String) :=
  match argv with
  | _ :: image_path :: rest =>
    match evaluate_image api_key encode_image primary clarify image_path rest.head? with
    | (Except.error e, _, _) => Except.error e
    | (Except.ok v, _, ls) =>
      Except.ok (0, ls ++ ["Final score: " ++ toString v, "SCORE:" ++ toString v])
  | _ =>
    Except.ok (1, ["Usage: python evaluate_simulink_image.py <image_path> [<before_image_path>]"])

example : extractScore "85/100" = some 85 := by decide
example : extractScore "スコア: 42 85/100" = some 42 := by decide
example : extractScore "score: 85" = none := by decide
example : extractScore "評価: 85" = some 85 := by decide
example : extractScore "150/100" = some 150 := by decide
example : extractScore "999点" = some 999 := by decide
example : extractScore "85／100" = some 85 := by decide
example : extractScore "スコア：85" = some 85 := by decide
example : extractScore "スコア 85" = some 85 := by decide
example : extractScore "a85/100" = none := by decide
example : extractScore "1234/100" = none := by decide
example : extractScore "evaluation: 85" = none := by decide
example : extractScore "無評価: 85" = none := by decide
example : extractScore "abcスコア: 42" = none := by decide
example : extractScore "42点 85/100" = some 42 := by decide
example : extractScore "85 / 100" = some 85 := by decide
example : extractScore "スコア:  :42" = none := by decide
example : extractScore "スコア :85" = none := by decide
example : extractScore "85点です" = none := by decide
example : extractScore "7/100 85/100" = some 7 := by decide
example : extractScore "100/100 スコア: 42" = some 100 := by decide
example : extractScore "0/100" = some 0 := by decide
example : extractScore "評価85" = some 85 := by decide
example : extractScore "1855/100" = none := by decide
example : extractScore "85/1000" = none := by decide
example : extractScore "スコア: 85abc" = none := by decide
example : extractScore "スコア: 1234" = none := by decide
example : extractScore "85　／　100" = some 85 := by decide
example : extractScore "スコア：：42" = some 42 := by decide
example : findInt13 "150 then 72 ok" = some 150 := by decide
example : findInt13 "abc" = none := by decide
example : findInt13 "12345 72" = some 72 := by decide
example : findInt13 "72a" = none := by decide
example : findInt13 "a72" = none := by decide
example : findInt13 "150 72" = some 150 := by decide

set_option maxRecDepth 100000 in
set_option maxHeartbeats 2000000 in
/-- Helper: the Japanese keyword patterns スコア and 評価 (with half-width
colon and a space) extract every 1–3 digit integer. -/
theorem japaneseKw_extract : ∀ n, n < 1000 →
    extractScoreL ("スコア: ".data ++ natDigits n) = some n ∧
    extractScoreL ("評価: ".data ++ natDigits n) = some n := by decide

/-- C1 (counterexample): the claim says that when a response contains both
"85/100" and "スコア: 42" the extractor returns 85 wherever the スコア pattern
occurs.  On the response "スコア: 42 85/100" the extractor returns 42, not 85:
`re.search` returns the leftmost match, and the スコア alternative matches at
position 0, before the "85/100" occurrence. -/
theorem c1_counterexample :
    extractScore "スコア: 42 85/100" = some 42 ∧
    extractScore "スコア: 42 85/100" ≠ some 85 := by decide

set_option maxRecDepth 100000 in
set_option maxHeartbeats 2000000 in
/-- C1 (amended): matching is leftmost-first, so the "n/100" pattern wins
exactly when its occurrence starts before any スコア match: for every
n ≤ 100, "<n>/100 スコア: 42" extracts n, while "スコア: 42 <n>/100"
extracts 42 — the "/100" alternative has priority over the スコア alternative
only among matches starting at the same position. -/
theorem c1_amended_leftmost : ∀ n, n ≤ 100 →
    extractScoreL (natDigits n ++ "/100 スコア: 42".data) = some n ∧
    extractScoreL ("スコア: 42 ".data ++ natDigits n ++ "/100".data) = some 42 := by decide

/-- C1 amended theorem instantiated at n = 85. -/
theorem c1_amended_witness :
    extractScoreL (natDigits 85 ++ "/100 スコア: 42".data) = some 85 ∧
    extractScoreL ("スコア: 42 ".data ++ natDigits 85 ++ "/100".data) = some 42 :=
  c1_amended_leftmost 85 (by decide)

/-- C4: when no API credential is in the environment (`os.environ.get`
returns `None`), `evaluate_image` returns the sentinel -1, issues zero
network calls, and prints only the NO_API_KEY diagnostic — for every
encode oracle, transport oracle, and combination of image-path arguments. -/
theorem c4_no_key_sentinel (encode_image : String → Except String String)
    (primary clarify : Except String String)
    (image_path : String) (before_image_path : Option String) :
    evaluate_image none encode_image primary clarify image_path before_image_path =
      (Except.ok (-1), 0,
       ["NO_API_KEY: OPENAI_API_KEY environment variable not set. Switching to manual evaluation."]) :=
  rfl

/-- C5 (counterexample): the claim says the extractor recognizes the English
keyword variants "score: <n>" and "evaluation: <n>".  It does not: the regex
only contains the Japanese keywords スコア and 評価, so "score: 85" and
"evaluation: 85" produce no primary match at all (instead of returning 85). -/
theorem c5_counterexample :
    extractScore "score: 85" = none ∧ extractScore "score: 85" ≠ some 85 ∧
    extractScore "evaluation: 85" = none ∧ extractScore "evaluation: 85" ≠ some 85 := by
  decide

/-- C5 (amended): the primary extraction recognizes only the Japanese
keywords スコア and 評価, which extract every 1–3 digit integer n; the
English-keyword texts "score: 85" / "evaluation: 85" match no primary
pattern and fall through to the clarification path. -/
theorem c5_amended_japanese_only (n : Nat) (h : n < 1000) :
    extractScoreL ("スコア: ".data ++ natDigits n) = some n ∧
    extractScoreL ("評価: ".data ++ natDigits n) = some n ∧
    extractScore "score: 85" = none ∧
    extractScore "evaluation: 85" = none :=
  ⟨(japaneseKw_extract n h).1, (japaneseKw_extract n h).2, by decide, by decide⟩

/-- C5 amended theorem instantiated at n = 85. -/
theorem c5_amended_witness :
    extractScoreL ("スコア: ".data ++ natDigits 85) = some 85 ∧
    extractScoreL ("評価: ".data ++ natDigits 85) = some 85 ∧
    extractScore "score: 85" = none ∧
    extractScore "evaluation: 85" = none :=
  c5_amended_japanese_only 85 (by decide)

/-- C6: primary matches are returned without range clamping: "150/100"
extracts 150 and "999点" extracts 999, both strictly greater than 100, and a
full run of `evaluate_image` on such a response returns that value after a
single API call — the clarification oracle (which would return 7) is never
consulted and the default 50 never arises. -/
theorem c6_no_clamping :
    extractScore "150/100" = some 150 ∧ 100 < 150 ∧
    extractScore "999点" = some 999 ∧ 100 < 999 ∧
    (evaluate_image (some "sk-test") (fun _ => Except.ok "imgdata")
        (Except.ok "150/100") (Except.ok "7") "cur.png" none).1 = Except.ok 150 ∧
    (evaluate_image (some "sk-test") (fun _ => Except.ok "imgdata")
        (Except.ok "150/100") (Except.ok "7") "cur.png" none).2.1 = 1 ∧
    (evaluate_image (some "sk-test") (fun _ => Except.ok "imgdata")
        (Except.ok "999点") (Except.ok "7") "cur.png" none).1 = Except.ok 999 ∧
    (evaluate_image (some "sk-test") (fun _ => Except.ok "imgdata")
        (Except.ok "999点") (Except.ok "7") "cur.png" none).2.1 = 1 :=
  ⟨by decide, by decide, by decide, by decide, rfl, rfl, rfl, rfl⟩

set_option maxRecDepth 100000 in
set_option maxHeartbeats 4000000 in
/-- C9: full-width and half-width punctuation extract identically: for every
1–3 digit integer n, "<n>／100" and "<n>/100" both extract n, and
"スコア：<n>", "スコア:<n>", "スコア <n>" (full-width colon, half-width
colon, colon omitted) all extract n. -/
theorem c9_fullwidth_equiv : ∀ n, n < 1000 →
    extractScoreL (natDigits n ++ "／100".data) = some n ∧
    extractScoreL (natDigits n ++ "/100".data) = some n ∧
    extractScoreL ("スコア：".data ++ natDigits n) = some n ∧
    extractScoreL ("スコア:".data ++ natDigits n) = some n ∧
    extractScoreL ("スコア ".data ++ natDigits n) = some n := by decide

/-- C2: when no primary pattern matches the first response, exactly one
clarification call is issued (total API calls = 2: the primary call plus one
clarification); if the clarification reply's first 1–3 digit integer lies in
[0,100] it is returned, and if the clarification call fails, or the reply has
no 1–3 digit integer, or the integer found is out of range, the default 50 is
returned. -/
theorem c2_clarification_flow (key : String) (hkey : keyMissing (some key) = false)
    (encode_image : String → Except String String) (image_path img : String)
    (henc : encode_image image_path = Except.ok img)
    (resp : String) (hresp : extractScore resp = none)
    (clarify : Except String String) :
    (evaluate_image (some key) encode_image (Except.ok resp) clarify image_path none).2.1 = 2 ∧
    (∀ creply m, clarify = Except.ok creply → findInt13 creply = some m → m ≤ 100 →
      (evaluate_image (some key) encode_image (Except.ok resp) clarify image_path none).1 =
        Except.ok (m : Int)) ∧
    (∀ e, clarify = Except.error e →
      (evaluate_image (some key) encode_image (Except.ok resp) clarify image_path none).1 =
        Except.ok 50) ∧
    (∀ creply, clarify = Except.ok creply → findInt13 creply = none →
      (evaluate_image (some key) encode_image (Except.ok resp) clarify image_path none).1 =
        Except.ok 50) ∧
    (∀ creply m, clarify = Except.ok creply → findInt13 creply = some m → 100 < m →
      (evaluate_image (some key) encode_image (Except.ok resp) clarify image_path none).1 =
        Except.ok 50) := by
  refine ⟨?_, ?_, ?_, ?_, ?_⟩
  · cases clarify with
    | error e => simp [evaluate_image, hkey, henc, hresp]
    | ok c =>
      cases hf : findInt13 c with
      | none => simp [evaluate_image, hkey, henc, hresp, hf]
      | some m =>
        by_cases hm : m ≤ 100 <;> simp [evaluate_image, hkey, henc, hresp, hf, hm]
  · intro creply m hc hf hm
    subst hc
    simp [evaluate_image, hkey, henc, hresp, hf, hm]
  · intro e hc
    subst hc
    simp [evaluate_image, hkey, henc, hresp]
  · intro creply hc hf
    subst hc
    simp [evaluate_image, hkey, henc, hresp, hf]
  · intro creply m hc hf hm
    subst hc
    simp [evaluate_image, hkey, henc, hresp, hf, Nat.not_le.mpr hm]

/-- C2 theorem instantiated: primary response "hello" has no score pattern,
clarification reply "72" yields the final score 72 after two API calls. -/
theorem c2_clarification_flow_witness :
    extractScore "hello" = none ∧ findInt13 "72" = some 72 ∧
    (evaluate_image (some "sk-test") (fun _ => Except.ok "imgdata") (Except.ok "hello")
        (Except.ok "72") "cur.png" none).1 = Except.ok 72 ∧
    (evaluate_image (some "sk-test") (fun _ => Except.ok "imgdata") (Except.ok "hello")
        (Except.ok "72") "cur.png" none).2.1 = 2 :=
  ⟨by decide, by decide,
   (c2_clarification_flow "sk-test" (by decide) _ "cur.png" "imgdata" rfl "hello" (by decide)
      (Except.ok "72")).2.1 "72" 72 rfl (by decide) (by decide),
   (c2_clarification_flow "sk-test" (by decide) _ "cur.png" "imgdata" rfl "hello" (by decide)
      (Except.ok "72")).1⟩

/-- C3: every transport-level failure is absorbed: a failing primary call
yields 50, a failing clarification call (after an unparseable primary reply)
yields 50, and for every pair of transport oracles the result is `Except.ok`
— no exception from the network/parse path propagates to the caller. -/
theorem c3_transport_absorbed (key : String) (hkey : keyMissing (some key) = false)
    (encode_image : String → Except String String) (image_path img : String)
    (henc : encode_image image_path = Except.ok img) :
    (∀ e clarify,
      (evaluate_image (some key) encode_image (Except.error e) clarify image_path none).1 =
        Except.ok 50) ∧
    (∀ resp e, extractScore resp = none →
      (evaluate_image (some key) encode_image (Except.ok resp) (Except.error e)
          image_path none).1 = Except.ok 50) ∧
    (∀ primary clarify, ∃ v : Int,
      (evaluate_image (some key) encode_image primary clarify image_path none).1 =
        Except.ok v) := by
  refine ⟨?_, ?_, ?_⟩
  · intro e clarify
    simp [evaluate_image, hkey, henc]
  · intro resp e hresp
    simp [evaluate_image, hkey, henc, hresp]
  · intro primary clarify
    cases primary with
    | error e => exact ⟨50, by simp [evaluate_image, hkey, henc]⟩
    | ok resp =>
      cases hx : extractScore resp with
      | some s => exact ⟨s, by simp [evaluate_image, hkey, henc, hx]⟩
      | none =>
        cases clarify with
        | error e => exact ⟨50, by simp [evaluate_image, hkey, henc, hx]⟩
        | ok c =>
          cases hf : findInt13 c with
          | none => exact ⟨50, by simp [evaluate_image, hkey, henc, hx, hf]⟩
          | some m =>
            by_cases hm : m ≤ 100
            · exact ⟨m, by simp [evaluate_image, hkey, henc, hx, hf, hm]⟩
            · exact ⟨50, by simp [evaluate_image, hkey, henc, hx, hf, hm]⟩

/-- C3 theorem instantiated: a primary `ConnectionError` yields 50, and with
both oracles arbitrary the result is still some `Except.ok` value. -/
theorem c3_transport_absorbed_witness :
    (evaluate_image (some "sk-test") (fun _ => Except.ok "imgdata")
        (Except.error "ConnectionError") (Except.ok "72") "cur.png" none).1 = Except.ok 50 ∧
    (∃ v : Int, (evaluate_image (some "sk-test") (fun _ => Except.ok "imgdata")
        (Except.ok "no numeric reply") (Except.error "ReadTimeout") "cur.png" none).1 =
        Except.ok v) :=
  ⟨(c3_transport_absorbed "sk-test" (by decide) _ "cur.png" "imgdata" rfl).1 "ConnectionError"
      (Except.ok "72"),
   (c3_transport_absorbed "sk-test" (by decide) _ "cur.png" "imgdata" rfl).2.2
      (Except.ok "no numeric reply") (Except.error "ReadTimeout")⟩

/-- C7: a file-access failure on either image propagates out of
`evaluate_image` uncaught (the reads precede the try/except): the result is
`Except.error`, zero API calls are made, and neither the default 50 nor the
sentinel -1 is produced. -/
theorem c7_file_error_propagates (key : String) (hkey : keyMissing (some key) = false)
    (encode_image : String → Except String String)
    (primary clarify : Except String String) :
    (∀ image_path e before_image_path, encode_image image_path = Except.error e →
      evaluate_image (some key) encode_image primary clarify image_path before_image_path =
        (Except.error e, 0, [])) ∧
    (∀ image_path img bp e, encode_image image_path = Except.ok img →
      encode_image bp = Except.error e →
      evaluate_image (some key) encode_image primary clarify image_path (some bp) =
        (Except.error e, 0, [])) := by
  constructor
  · intro image_path e before_image_path h
    simp [evaluate_image, hkey, h]
  · intro image_path img bp e h1 h2
    simp [evaluate_image, hkey, h1, h2, Except.map]

/-- C7 theorem instantiated: an unreadable current image makes
`evaluate_image` propagate the file error with zero API calls. -/
theorem c7_file_error_propagates_witness :
    evaluate_image (some "sk-test") (fun _ => Except.error "FileNotFoundError")
        (Except.ok "85/100") (Except.ok "72") "missing.png" none =
      (Except.error "FileNotFoundError", 0, []) :=
  (c7_file_error_propagates "sk-test" (by decide) (fun _ => Except.error "FileNotFoundError")
      (Except.ok "85/100") (Except.ok "72")).1 "missing.png" "FileNotFoundError" none rfl

/-- C8: whenever the scoring pipeline runs (a current-image argument was
supplied) and `evaluate_image` returns a value v (possibly -1), the printed
output ends with exactly the two lines "Final score: v" and "SCORE:v", with
the SCORE line last. -/
theorem c8_output_contract (api_key : Option String)
    (encode_image : String → Except String String) (primary clarify : Except String String)
    (prog image_path : String) (rest : List String) (v : Int) (c : Nat) (ls : List String)
    (h : evaluate_image api_key encode_image primary clarify image_path rest.head? =
      (Except.ok v, c, ls)) :
    main_run (prog :: image_path :: rest) api_key encode_image primary clarify =
      Except.ok (0, ls ++ ["Final score: " ++ toString v, "SCORE:" ++ toString v]) := by
  simp [main_run, h]

/-- C8 theorem instantiated on the sentinel path: with no API key the output
ends with "Final score: -1" and "SCORE:-1". -/
theorem c8_output_contract_witness :
    main_run ["evaluate_simulink_image.py", "cur.png"] none (fun _ => Except.ok "x")
        (Except.ok "85/100") (Except.ok "72") =
      Except.ok (0,
        ["NO_API_KEY: OPENAI_API_KEY environment variable not set. Switching to manual evaluation."]
          ++ ["Final score: " ++ toString (-1 : Int), "SCORE:" ++ toString (-1 : Int)]) :=
  c8_output_contract none (fun _ => Except.ok "x") (Except.ok "85/100") (Except.ok "72")
    "evaluate_simulink_image.py" "cur.png" [] (-1) 0
    ["NO_API_KEY: OPENAI_API_KEY environment variable not set. Switching to manual evaluation."]
    rfl

/-- C10: only the first 1–3 digit integer of the clarification reply is ever
considered: when it is outside [0,100] the default 50 is returned, even when
a later integer in the same reply lies within [0,100]. -/
theorem c10_first_integer_only (key : String) (hkey : keyMissing (some key) = false)
    (encode_image : String → Except String String) (image_path img : String)
    (henc : encode_image image_path = Except.ok img)
    (resp : String) (hresp : extractScore resp = none)
    (creply : String) (m : Nat) (hfind : findInt13 creply = some m) (hm : 100 < m) :
    (evaluate_image (some key) encode_image (Except.ok resp) (Except.ok creply)
        image_path none).1 = Except.ok 50 := by
  simp [evaluate_image, hkey, henc, hresp, hfind, Nat.not_le.mpr hm]

/-- C10 theorem instantiated: the reply "150 then 72 ok" has first integer
150 (out of range) and a later in-range integer 72, yet the result is 50. -/
theorem c10_first_integer_only_witness :
    findInt13 "150 then 72 ok" = some 150 ∧ 100 < 150 ∧ findInt13 "72 ok" = some 72 ∧
    (evaluate_image (some "sk-test") (fun _ => Except.ok "imgdata") (Except.ok "hello")
        (Except.ok "150 then 72 ok") "cur.png" none).1 = Except.ok 50 :=
  ⟨by decide, by decide, by decide,
   c10_first_integer_only "sk-test" (by decide) _ "cur.png" "imgdata" rfl "hello" (by decide)
     "150 then 72 ok" 150 (by decide) (by decide)⟩

/-- C9 theorem instantiated at n = 85. -/
theorem c9_fullwidth_equiv_witness :
    extractScoreL (natDigits 85 ++ "／100".data) = some 85 ∧
    extractScoreL (natDigits 85 ++ "/100".data) = some 85 ∧
    extractScoreL ("スコア：".data ++ natDigits 85) = some 85 ∧
    extractScoreL ("スコア:".data ++ natDigits 85) = some 85 ∧
    extractScoreL ("スコア ".data ++ natDigits 85) = some 85 :=
  c9_fullwidth_equiv 85 (by decide)
example : findInt13 "1507" = none := by decide
example : findInt13 "72" = some 72 := by decide
